import Mathlib

/-!
Shallow embedding of the lockminds risk-adaptive authentication core.

Modelling conventions:
* Timestamps (`Date`, `Date.now()`) are integers counting milliseconds.
* JavaScript `Map` objects are association lists keyed by strings;
  `Map.set` on an existing key replaces the value in place, preserving
  insertion order, and `Array.from(map.values())` iterates in insertion
  order — both are mirrored by `mapSet` / `mapValues` below.
* Nullable / optional string fields (`string | null`, `userId?: string`)
  are `Option String`.  A strict-equality comparison between a
  `string | null` field and a `string | undefined` argument is true only
  when both sides are the same string (`null === undefined` is false in
  JavaScript); `jsStrEqOpt` captures this.  JavaScript truthiness of a
  nullable string (`if (s)`) is `optTruthy`.
* Calls to `randomUUID()` / `randomBytes(..).toString('hex')` are modelled
  by explicit freshness parameters supplied by the caller.
* Risk scores are natural numbers; every place the source subtracts it
  immediately floors with `Math.max`, which coincides with truncated `Nat`
  subtraction (noted at each use).
-/

/-- JavaScript strict equality between a `string | null` field and a
`string | undefined` value: true only when both are the same string. -/
def jsStrEqOpt (a b : Option String) : Bool :=
  match a, b with
  | some x, some y => x == y
  | _, _ => false

/-- JavaScript truthiness of a nullable/optional string. -/
def optTruthy : Option String → Bool
  | some s => s ≠ ""
  | none => false

/-- `s.includes(sub)` on JavaScript strings (computed over the character
lists so the kernel can evaluate it). -/
def strIncludes (s sub : String) : Bool :=
  (List.range (s.data.length + 1)).any fun i => sub.data.isPrefixOf (s.data.drop i)

/-- `s.toLowerCase()` (computed over the character list). -/
def strToLower (s : String) : String :=
  ⟨s.data.map Char.toLower⟩

/-- `s.split(sep)` for a one-character separator, as a list of character
groups; `splitChar sep "".data = [[]]` just as `''.split(sep)` is `['']`. -/
def splitChar (sep : Char) : List Char → List (List Char)
  | [] => [[]]
  | c :: cs =>
      match splitChar sep cs with
      | [] => [[]]
      | g :: gs => if c = sep then [] :: g :: gs else (c :: g) :: gs

/-- Lookup in an insertion-ordered string-keyed map (`Map.get`). -/
def mapGet {α : Type} (m : List (String × α)) (k : String) : Option α :=
  (m.find? fun p => p.1 == k).map (·.2)

/-- `Map.set`: replace in place when the key exists, else append. -/
def mapSet {α : Type} (m : List (String × α)) (k : String) (v : α) :
    List (String × α) :=
  if m.any (fun p => p.1 == k) then
    m.map fun p => if p.1 == k then (k, v) else p
  else
    m ++ [(k, v)]

/-- `Array.from(map.values())`: values in insertion order. -/
def mapValues {α : Type} (m : List (String × α)) : List α :=
  m.map (·.2)

/-! ## Data model (shared/schema.ts records as used by the server) -/

structure User where
  id : String
  email : String
  masterPasswordHash : String
  deriving Repr, DecidableEq

structure AuthSession where
  id : String
  userId : String
  sessionToken : String
  refreshToken : String
  deviceFingerprint : String
  ipAddress : String
  userAgent : String
  authMethod : String
  riskScore : Nat
  isActive : Bool
  expiresAt : Int
  createdAt : Int
  deriving Repr, DecidableEq

structure DeviceFingerprintRec where
  id : String
  fingerprint : String
  userId : Option String
  ipAddress : String
  platform : Option String
  browser : Option String
  screenResolution : Option String
  timezone : Option String
  language : Option String
  riskScore : Nat
  isTrusted : Bool
  firstSeen : Int
  lastSeen : Int
  loginCount : Nat
  deriving Repr, DecidableEq

structure AuthChallenge where
  id : String
  challenge : String
  type : String
  userId : Option String
  isUsed : Bool
  expiresAt : Int
  createdAt : Int
  deriving Repr, DecidableEq

structure MfaChallenge where
  id : String
  challengeCode : String
  userId : String
  isApproved : Option Bool
  approvedAt : Option Int
  expiresAt : Int
  createdAt : Int
  deriving Repr, DecidableEq

structure WebauthnCredential where
  id : String
  userId : String
  credentialId : String
  publicKey : String
  counter : Nat
  lastUsed : Int
  deriving Repr, DecidableEq

structure SecurityLog where
  userId : String
  message : String
  deriving Repr, DecidableEq

/-- In-memory store (`MemStorage` in server/storage.ts): one insertion-ordered
map per record type.  Sessions are keyed by session `id`, devices by
fingerprint, auth challenges by challenge value, MFA challenges by challenge
code, WebAuthn credentials by record `id`. -/
structure MemStorage where
  users : List (String × User)
  authSessions : List (String × AuthSession)
  deviceFingerprints : List (String × DeviceFingerprintRec)
  authChallenges : List (String × AuthChallenge)
  mfaChallenges : List (String × MfaChallenge)
  webauthnCredentials : List (String × WebauthnCredential)
  securityLogs : List SecurityLog
  deriving Repr, DecidableEq

def MemStorage.empty : MemStorage :=
  ⟨[], [], [], [], [], [], []⟩

/-! ## MemStorage operations -/

def getUserByEmail (st : MemStorage) (email : String) : Option User :=
  (mapValues st.users).find? fun u => u.email == email

def getUser (st : MemStorage) (id : String) : Option User :=
  mapGet st.users id

def createSecurityLog (st : MemStorage) (userId message : String) : MemStorage :=
  { st with securityLogs := st.securityLogs ++ [⟨userId, message⟩] }

/-- `getAuthSession`: first active session with the given access-token value. -/
def getAuthSession (st : MemStorage) (sessionToken : String) : Option AuthSession :=
  (mapValues st.authSessions).find? fun s =>
    s.sessionToken == sessionToken && s.isActive

/-- `getAuthSessionBySessionId`: first active session whose record id matches. -/
def getAuthSessionBySessionId (st : MemStorage) (sessionId : String) :
    Option AuthSession :=
  (mapValues st.authSessions).find? fun s => s.id == sessionId && s.isActive

def getAuthSessionsByUser (st : MemStorage) (userId : String) : List AuthSession :=
  (mapValues st.authSessions).filter fun s => s.userId == userId && s.isActive

/-- Fields supplied by callers of `createAuthSession`. -/
structure InsertAuthSession where
  userId : String
  sessionToken : String
  refreshToken : String
  deviceFingerprint : String
  ipAddress : String
  userAgent : String
  authMethod : String
  riskScore : Nat
  expiresAt : Int
  deriving Repr, DecidableEq

/-- `createAuthSession`; `freshId` stands for the `randomUUID()` call.
`riskScore || 0` maps a zero score to zero, i.e. is the identity on `Nat`. -/
def createAuthSession (st : MemStorage) (ins : InsertAuthSession)
    (freshId : String) (now : Int) : MemStorage × AuthSession :=
  let s : AuthSession :=
    { id := freshId
      userId := ins.userId
      sessionToken := ins.sessionToken
      refreshToken := ins.refreshToken
      deviceFingerprint := ins.deviceFingerprint
      ipAddress := ins.ipAddress
      userAgent := ins.userAgent
      authMethod := ins.authMethod
      riskScore := ins.riskScore
      isActive := true
      expiresAt := ins.expiresAt
      createdAt := now }
  ({ st with authSessions := mapSet st.authSessions freshId s }, s)

def deactivateAuthSessionBySessionId (st : MemStorage) (sessionId : String) :
    MemStorage × Bool :=
  match getAuthSessionBySessionId st sessionId with
  | none => (st, false)
  | some s =>
      ({ st with authSessions := mapSet st.authSessions s.id { s with isActive := false } },
       true)

def getDeviceFingerprint (st : MemStorage) (fingerprint : String) :
    Option DeviceFingerprintRec :=
  mapGet st.deviceFingerprints fingerprint

/-- `getDeviceFingerprints(userId)`: with a truthy user id, that user's
devices; with a falsy one, every device. -/
def getDeviceFingerprints (st : MemStorage) (userId : String) :
    List DeviceFingerprintRec :=
  if userId ≠ "" then
    (mapValues st.deviceFingerprints).filter fun d => jsStrEqOpt d.userId (some userId)
  else
    mapValues st.deviceFingerprints

/-- Request-derived device signals (`DeviceFingerprintData`). -/
structure DeviceFingerprintData where
  fingerprint : String
  ipAddress : String
  userAgent : String
  platform : Option String
  browser : Option String
  screenResolution : Option String
  timezone : Option String
  language : Option String
  deriving Repr, DecidableEq

/-- `createDeviceFingerprint`; `freshId` models `randomUUID()`.
`riskScore || 50` sends a zero score to 50. -/
def createDeviceFingerprint (st : MemStorage) (data : DeviceFingerprintData)
    (userId : Option String) (riskScore : Nat) (freshId : String) (now : Int) :
    MemStorage :=
  let d : DeviceFingerprintRec :=
    { id := freshId
      fingerprint := data.fingerprint
      userId := userId
      ipAddress := data.ipAddress
      platform := data.platform
      browser := data.browser
      screenResolution := data.screenResolution
      timezone := data.timezone
      language := data.language
      riskScore := if riskScore = 0 then 50 else riskScore
      isTrusted := false
      firstSeen := now
      lastSeen := now
      loginCount := 0 }
  { st with deviceFingerprints := mapSet st.deviceFingerprints data.fingerprint d }

/-- `updateDeviceFingerprint`, specialised to the update object built by
`recordDeviceLogin` (which lists every signal field, so each one overrides
the stored value); bumps `lastSeen` and `loginCount`. -/
def updateDeviceFingerprintLogin (st : MemStorage) (data : DeviceFingerprintData)
    (now : Int) : MemStorage :=
  match mapGet st.deviceFingerprints data.fingerprint with
  | none => st
  | some d =>
      let d' := { d with
        ipAddress := data.ipAddress
        platform := data.platform
        browser := data.browser
        screenResolution := data.screenResolution
        timezone := data.timezone
        language := data.language
        lastSeen := now
        loginCount := d.loginCount + 1 }
      { st with deviceFingerprints := mapSet st.deviceFingerprints data.fingerprint d' }

/-- `getAuthChallenge`: only unexpired, unused challenges are returned. -/
def getAuthChallenge (st : MemStorage) (challenge : String) (now : Int) :
    Option AuthChallenge :=
  match mapGet st.authChallenges challenge with
  | some c => if c.expiresAt > now && !c.isUsed then some c else none
  | none => none

def createAuthChallenge (st : MemStorage) (challenge ctype : String)
    (userId : Option String) (expiresAt : Int) (freshId : String) (now : Int) :
    MemStorage :=
  let c : AuthChallenge :=
    { id := freshId, challenge := challenge, type := ctype, userId := userId
      isUsed := false, expiresAt := expiresAt, createdAt := now }
  { st with authChallenges := mapSet st.authChallenges challenge c }

/-- `markChallengeUsed`: unconditionally flips the flag when the record exists
(no used/expiry re-check at this level). -/
def markChallengeUsed (st : MemStorage) (challenge : String) : MemStorage × Bool :=
  match mapGet st.authChallenges challenge with
  | none => (st, false)
  | some c =>
      ({ st with authChallenges := mapSet st.authChallenges challenge { c with isUsed := true } },
       true)

/-- `getMfaChallenge`: returned while unexpired, regardless of approval state. -/
def getMfaChallenge (st : MemStorage) (challengeCode : String) (now : Int) :
    Option MfaChallenge :=
  match mapGet st.mfaChallenges challengeCode with
  | some c => if c.expiresAt > now then some c else none
  | none => none

def createMfaChallenge (st : MemStorage) (challengeCode userId : String)
    (expiresAt : Int) (freshId : String) (now : Int) : MemStorage :=
  let c : MfaChallenge :=
    { id := freshId, challengeCode := challengeCode, userId := userId
      isApproved := none, approvedAt := none
      expiresAt := expiresAt, createdAt := now }
  { st with mfaChallenges := mapSet st.mfaChallenges challengeCode c }

/-- Storage-level `approveMfaChallenge`: succeeds for any existing unexpired
challenge — the approval state is not consulted. -/
def approveMfaChallengeStore (st : MemStorage) (challengeCode : String)
    (now : Int) : MemStorage × Bool :=
  match mapGet st.mfaChallenges challengeCode with
  | none => (st, false)
  | some c =>
      if c.expiresAt ≤ now then (st, false)
      else
        let c' := { c with isApproved := some true, approvedAt := some now }
        ({ st with mfaChallenges := mapSet st.mfaChallenges challengeCode c' }, true)

def getWebauthnCredentialByCredentialId (st : MemStorage) (credentialId : String) :
    Option WebauthnCredential :=
  (mapValues st.webauthnCredentials).find? fun c => c.credentialId == credentialId

/-- `updateWebauthnCredentialCounter`: overwrites the counter with the given
value whenever the credential exists; no comparison against the stored value. -/
def updateWebauthnCredentialCounter (st : MemStorage) (credentialId : String)
    (counter : Nat) (now : Int) : MemStorage × Bool :=
  match getWebauthnCredentialByCredentialId st credentialId with
  | none => (st, false)
  | some c =>
      let c' := { c with counter := counter, lastUsed := now }
      ({ st with webauthnCredentials := mapSet st.webauthnCredentials c.id c' }, true)

/-- The store that results from overwriting an existing credential's counter
in place (the success branch of `updateWebauthnCredentialCounter`). -/
def overwriteWebauthnCounter (st : MemStorage) (cred : WebauthnCredential)
    (counter : Nat) (now : Int) : MemStorage :=
  let c' := { cred with counter := counter, lastUsed := now }
  { st with webauthnCredentials := mapSet st.webauthnCredentials cred.id c' }

/-! ## Device Fingerprint Service (server/services/deviceFingerprint.ts) -/

/-- Base branch of `DeviceFingerprintService.analyzeRisk`: known device for
the same user lowers risk from its stored score (`Math.max(5, r-5)`, a
further `Math.max(0, ·-10)` after more than 10 logins — both floors coincide
with truncated `Nat` subtraction), a device owned by a different user forces
80, an unknown device 60; a known device with no owner keeps the base 30. -/
def analyzeRiskBase (st : MemStorage) (data : DeviceFingerprintData)
    (userId : Option String) : Nat :=
  match getDeviceFingerprint st data.fingerprint with
  | some dev =>
      if jsStrEqOpt dev.userId userId then
        let r := max 5 (dev.riskScore - 5)
        if dev.loginCount > 10 then r - 10 else r
      else if optTruthy dev.userId && !jsStrEqOpt dev.userId userId then 80
      else 30
  | none => 60

/-- IP-correlation step of `analyzeRisk`: with a truthy user id, sharing an IP
with one of that user's devices lowers risk by 15 (floored at 10). -/
def analyzeRiskIpAdjust (st : MemStorage) (data : DeviceFingerprintData)
    (userId : Option String) (r : Nat) : Nat :=
  match userId with
  | some u =>
      if u ≠ "" then
        if ((getDeviceFingerprints st u).filter
              fun d => d.ipAddress == data.ipAddress).length > 0 then
          max 10 (r - 15)
        else r
      else r
  | none => r

/-- Browser step of `analyzeRisk`: `['unknown', '', null]` contains the
lowercased browser name.  A missing browser (`undefined`) is not in the list. -/
def suspiciousBrowser (browser : Option String) : Bool :=
  match browser with
  | some b => strToLower b == "unknown" || b == ""
  | none => false

/-- Platform step of `analyzeRisk`: a truthy platform that contains none of
the trusted platform names adds risk. -/
def untrustedPlatform (platform : Option String) : Bool :=
  match platform with
  | some p =>
      p ≠ "" && !(["Windows", "Mac OS", "iOS", "Android"].any fun t => strIncludes p t)
  | none => false

def analyzeRiskAdjustments (st : MemStorage) (data : DeviceFingerprintData)
    (userId : Option String) (base : Nat) : Nat :=
  let r1 := analyzeRiskIpAdjust st data userId base
  let r2 := if suspiciousBrowser data.browser then r1 + 20 else r1
  if untrustedPlatform data.platform then r2 + 15 else r2

/-- `DeviceFingerprintService.analyzeRisk(deviceData, userId?)`; final
`Math.min(100, Math.max(0, r))` clamp (the `max 0` is vacuous over `Nat`). -/
def analyzeRisk (st : MemStorage) (data : DeviceFingerprintData)
    (userId : Option String) : Nat :=
  min 100 (analyzeRiskAdjustments st data userId (analyzeRiskBase st data userId))

/-- `DeviceFingerprintService.recordDeviceLogin`: update an existing device
record, or create one scored by `analyzeRisk` (`freshId` models the
`randomUUID()` inside `createDeviceFingerprint`). -/
def recordDeviceLogin (st : MemStorage) (data : DeviceFingerprintData)
    (userId : Option String) (freshId : String) (now : Int) : MemStorage :=
  match getDeviceFingerprint st data.fingerprint with
  | some _ => updateDeviceFingerprintLogin st data now
  | none =>
      let riskScore := analyzeRisk st data userId
      createDeviceFingerprint st data userId riskScore freshId now

/-! ## Risk Engine (server/services/riskEngine.ts) -/

inductive Recommendation
  | allow
  | mfaRequired
  | block
  deriving Repr, DecidableEq

structure RiskFactor where
  ftype : String
  risk : Nat
  description : String
  /-- factor weight in tenths: 4 ∣ 3 ∣ 1 ∣ 2 stand for 0.4 ∣ 0.3 ∣ 0.1 ∣ 0.2 -/
  weightTenths : Nat
  deriving Repr, DecidableEq

structure RiskAssessment where
  overallRisk : Nat
  factors : List RiskFactor
  recommendation : Recommendation
  requiresAdditionalAuth : Bool
  deriving Repr, DecidableEq

/-- Seven days in milliseconds. -/
def sevenDaysMs : Int := 7 * 24 * 60 * 60 * 1000

/-- Number of occurrences of a method in the list. -/
def countOcc (l : List String) (m : String) : Nat :=
  (l.filter fun x => x == m).length

/-- `Object.keys(methodCounts).sort((a,b)=>counts[b]-counts[a])[0]`:
keys in first-appearance order, stably sorted by descending count — the head
is the first-seen method attaining the maximal count. -/
def mostCommonMethod (methods : List String) : Option String :=
  let keys := methods.foldl (fun acc m => if m ∈ acc then acc else acc ++ [m]) []
  let maxCount := keys.foldl (fun acc m => max acc (countOcc methods m)) 0
  keys.find? fun m => countOcc methods m == maxCount

/-- `RiskEngine.analyzeBehaviorRisk(userId)`: over the user's active sessions —
50 with no session history; 75 when averaging more than 20 logins/day over the
last week (`len/7 > 20 ↔ len > 140`); 60 when none of the 5 most recent
methods is the historically dominant one; 20 otherwise. -/
def analyzeBehaviorRisk (st : MemStorage) (userId : String) (now : Int) : Nat :=
  let userSessions := getAuthSessionsByUser st userId
  if userSessions.length = 0 then 50
  else
    let recentSessions := userSessions.filter fun s => s.createdAt > now - sevenDaysMs
    if recentSessions.length > 140 then 75
    else
      let mostCommon := mostCommonMethod (recentSessions.map (·.authMethod))
      let recentAuthMethods := (recentSessions.take 5).map (·.authMethod)
      if recentAuthMethods.all fun m => some m ≠ mostCommon then 60
      else 20

/-- `RiskEngine.analyzeTimeRisk()`: reads the current wall clock — modelled by
passing the local hour of day and day of week explicitly. -/
def analyzeTimeRisk (hour dayOfWeek : Nat) : Nat :=
  if 2 ≤ hour ∧ hour ≤ 6 then 60
  else if dayOfWeek = 0 ∨ dayOfWeek = 6 then 30
  else 10

/-- `ip.split('.').slice(0, 3).join('.')`. -/
def subnet3 (ip : String) : String :=
  String.intercalate "." (((splitChar '.' ip.data).map String.mk).take 3)

/-- `RiskEngine.analyzeLocationRisk(userId, currentIp)`. -/
def analyzeLocationRisk (st : MemStorage) (userId : String) (currentIp : String) : Nat :=
  let knownIPs := (getDeviceFingerprints st userId).map (·.ipAddress)
  if knownIPs.contains currentIp then 10
  else if knownIPs.any fun ip => subnet3 ip == subnet3 currentIp then 30
  else 70

/-- `Math.round(dev*0.4 + beh*0.3 + time*0.1 + loc*0.2)` — the factor-list
reduce with weights in tenths, rounded half-up:
`⌊(4·dev + 3·beh + time + 2·loc)/10 + 1/2⌋ = (4·dev + 3·beh + time + 2·loc + 5) / 10`. -/
def combineOverallRisk (dev beh time loc : Nat) : Nat :=
  (4 * dev + 3 * beh + time + 2 * loc + 5) / 10

/-- `RiskEngine.assessLoginRisk(userId, deviceData, authMethod)`, with the
wall-clock reads made explicit (`now` for the behavioural recency window,
`hour`/`dayOfWeek` for the temporal factor). -/
def assessLoginRisk (st : MemStorage) (userId : String)
    (deviceData : DeviceFingerprintData) (authMethod : String)
    (now : Int) (hour dayOfWeek : Nat) : RiskAssessment :=
  let deviceRisk := analyzeRisk st deviceData (some userId)
  let behaviorRisk := analyzeBehaviorRisk st userId now
  let timeRisk := analyzeTimeRisk hour dayOfWeek
  let locationRisk := analyzeLocationRisk st userId deviceData.ipAddress
  let factors : List RiskFactor :=
    [ { ftype := "device", risk := deviceRisk
        description :=
          if deviceRisk > 70 then "Unknown or suspicious device"
          else if deviceRisk > 40 then "Unrecognized device" else "Known device"
        weightTenths := 4 },
      { ftype := "behavior", risk := behaviorRisk
        description :=
          if behaviorRisk > 70 then "Unusual login pattern detected"
          else if behaviorRisk > 40 then "Slightly different from normal pattern"
          else "Normal behavior pattern"
        weightTenths := 3 },
      { ftype := "time", risk := timeRisk
        description :=
          if timeRisk > 50 then "Login outside normal hours"
          else "Login during normal hours"
        weightTenths := 1 },
      { ftype := "location", risk := locationRisk
        description :=
          if locationRisk > 70 then "Login from new location"
          else if locationRisk > 40 then "Login from infrequent location"
          else "Login from known location"
        weightTenths := 2 } ]
  let overallRisk := combineOverallRisk deviceRisk behaviorRisk timeRisk locationRisk
  let basePolicy : Recommendation × Bool :=
    if overallRisk ≥ 90 then (.block, true)
    else if overallRisk ≥ 60 ∨ authMethod = "password" then (.mfaRequired, true)
    else if overallRisk ≥ 40 ∧ authMethod ≠ "webauthn" then (.mfaRequired, true)
    else (.allow, false)
  let policy :=
    if authMethod = "webauthn" ∨ authMethod = "biometric" then
      -- `Math.max(0, overallRisk - 20)` coincides with `Nat` subtraction
      if overallRisk - 20 < 40 then ((.allow : Recommendation), false) else basePolicy
    else basePolicy
  { overallRisk := overallRisk
    factors := factors
    recommendation := policy.1
    requiresAdditionalAuth := policy.2 }

/-- The `catch` fallback of `assessLoginRisk`: a fixed high-risk assessment. -/
def riskAssessmentFallback : RiskAssessment :=
  { overallRisk := 80
    factors := [{ ftype := "behavior", risk := 80
                  description := "Risk assessment unavailable", weightTenths := 10 }]
    recommendation := .mfaRequired
    requiresAdditionalAuth := true }

/-! ## JWT service (server/utils/jwt.ts)

Access tokens are signed with a fixed server secret and verified with the
same secret, issuer and audience; signing is injective on payloads and
verification recovers exactly the signed payload (via the `jti` claim for
the session id).  The embedding therefore represents a minted access token
by its payload; forged or third-party tokens are out of scope for the
claims below. -/

structure JWTPayload where
  userId : String
  email : String
  sessionId : String
  authMethod : String
  riskScore : Nat
  deviceFingerprint : String
  deriving Repr, DecidableEq

/-- `JWTService.verifyAccessToken` on a server-minted token recovers its
payload (signature/issuer/audience checks succeed by construction). -/
def verifyAccessToken (token : JWTPayload) : Option JWTPayload :=
  some token

/-- The serialised form of a signed access token: `jwt.sign` with the fixed
server secret produces a string determined by (and invertible to) the
payload; this concrete injective encoding stands in for it. -/
def jwtEncode (p : JWTPayload) : String :=
  "jwt|" ++ p.userId ++ "|" ++ p.email ++ "|" ++ p.sessionId ++ "|"
    ++ p.authMethod ++ "|" ++ toString p.riskScore ++ "|" ++ p.deviceFingerprint

structure TokenPair where
  accessToken : JWTPayload
  refreshToken : String
  expiresAt : Int
  deriving Repr, DecidableEq

/-- `JWTService.generateTokenPair`; the fresh random refresh token is passed
in; the pair expires one hour from now. -/
def generateTokenPair (payload : JWTPayload) (freshRefreshToken : String)
    (now : Int) : TokenPair :=
  { accessToken := payload
    refreshToken := freshRefreshToken
    expiresAt := now + 60 * 60 * 1000 }

/-! ## Request Guard (server/middleware/auth.ts, `authenticateToken`) -/

structure AuthedUser where
  userId : String
  email : String
  sessionId : String
  authMethod : String
  riskScore : Nat
  deviceFingerprint : String
  deriving Repr, DecidableEq

inductive GuardResult
  | ok (user : AuthedUser)
  | err (status : Nat) (code : String)
  deriving Repr, DecidableEq

/-- `authenticateToken`: requires a bearer token, verifies it, then confirms
the referenced session (looked up by the token's `sessionId` claim against
session record ids) is present, active and unexpired, and belongs to the
token's user. -/
def authenticateToken (st : MemStorage) (bearer : Option JWTPayload)
    (now : Int) : GuardResult :=
  match bearer with
  | none => .err 401 "TOKEN_MISSING"
  | some token =>
      match verifyAccessToken token with
      | none => .err 401 "TOKEN_INVALID"
      | some payload =>
          match getAuthSessionBySessionId st payload.sessionId with
          | none => .err 401 "SESSION_EXPIRED"
          | some session =>
              if !session.isActive || session.expiresAt < now then
                .err 401 "SESSION_EXPIRED"
              else if session.userId ≠ payload.userId then
                .err 401 "SESSION_MISMATCH"
              else
                .ok { userId := payload.userId
                      email := payload.email
                      sessionId := payload.sessionId
                      authMethod := payload.authMethod
                      riskScore := payload.riskScore
                      deviceFingerprint := payload.deviceFingerprint }

/-! ## Password login route (server/routes/auth.ts, `POST /auth/login`) -/

inductive LoginResponse
  | badRequest (code : String)
  | unauthorized (code : String)
  | forbidden (code : String)
  | notFound (code : String)
  | success (accessToken : JWTPayload) (refreshToken : String)
      (sessionId : String) (expiresAt : Int) (requiresMfa : Bool) (riskScore : Nat)
  deriving Repr, DecidableEq

/-- Randomness consumed by the login handler: the device record id
(`randomUUID`), the session record id (`randomUUID`), the token `sessionId`
(`randomBytes(16).toString('hex')`) and the refresh token. -/
structure LoginFresh where
  deviceRecId : String
  sessionRecId : String
  sessionIdHex : String
  refreshToken : String
  deriving Repr, DecidableEq

/-- The handler's hardcoded risk assessment ("Simplified risk assessment -
allow all logins for now"): risk 10, `allow`, no additional auth, installed
in place of a `RiskEngine.assessLoginRisk` call. -/
def hardcodedLoginAssessment : RiskAssessment :=
  { overallRisk := 10, factors := [], recommendation := .allow
    requiresAdditionalAuth := false }

/-- `POST /auth/login`: password verification (`bcrypt.compare` is the
injected `verifyPassword`), device recording, the hardcoded assessment above,
block check, token minting and session creation.  `deviceData` is the
fingerprint computed from the request by `generateFingerprint`. -/
def loginHandler (st : MemStorage) (email password : String)
    (deviceData : DeviceFingerprintData)
    (verifyPassword : String → String → Bool)
    (fresh : LoginFresh) (now : Int) : MemStorage × LoginResponse :=
  if email = "" ∨ password = "" then (st, .badRequest "MISSING_FIELDS")
  else
    match getUserByEmail st email with
    | none => (st, .unauthorized "INVALID_CREDENTIALS")
    | some user =>
        if !verifyPassword password user.masterPasswordHash then
          (createSecurityLog st user.id "Failed login attempt - invalid password",
           .unauthorized "INVALID_CREDENTIALS")
        else
          let st1 := recordDeviceLogin st deviceData (some user.id) fresh.deviceRecId now
          let riskAssessment := hardcodedLoginAssessment
          if riskAssessment.recommendation = .block then
            (createSecurityLog st1 user.id "Login blocked due to high risk",
             .forbidden "LOGIN_BLOCKED")
          else
            let sessionId := fresh.sessionIdHex
            let payload : JWTPayload :=
              { userId := user.id, email := user.email, sessionId := sessionId
                authMethod := "password", riskScore := riskAssessment.overallRisk
                deviceFingerprint := deviceData.fingerprint }
            let tokenData := generateTokenPair payload fresh.refreshToken now
            let ins : InsertAuthSession :=
              { userId := user.id
                sessionToken := jwtEncode tokenData.accessToken
                refreshToken := tokenData.refreshToken
                deviceFingerprint := deviceData.fingerprint
                ipAddress := deviceData.ipAddress
                userAgent := deviceData.userAgent
                authMethod := "password"
                riskScore := riskAssessment.overallRisk
                expiresAt := tokenData.expiresAt }
            let st2 := (createAuthSession st1 ins fresh.sessionRecId now).1
            let st3 := createSecurityLog st2 user.id "Password login successful"
            (st3, .success tokenData.accessToken tokenData.refreshToken sessionId
                    tokenData.expiresAt riskAssessment.requiresAdditionalAuth
                    riskAssessment.overallRisk)

/-! ## WebAuthn authentication completion
(server/routes/auth.ts, `POST /auth/webauthn/authenticate/complete`)

The cryptographic assertion check is performed by the external
`@simplewebauthn/server` library inside `WebAuthnService.verifyAuthentication`;
its verdict is the `verified` parameter (`some userId` when the assertion
verified and resolved that principal).  Everything after that point — device
recording, risk assessment with method `webauthn`, block check, token minting,
session creation — is translated from the handler. -/

def webauthnCompleteHandler (st : MemStorage) (verified : Option String)
    (deviceData : DeviceFingerprintData) (fresh : LoginFresh)
    (now : Int) (hour dayOfWeek : Nat) : MemStorage × LoginResponse :=
  match verified with
  | none => (st, .unauthorized "WEBAUTHN_AUTH_FAILED")
  | some verifiedUserId =>
      match getUser st verifiedUserId with
      | none => (st, .notFound "USER_NOT_FOUND")
      | some user =>
          let st1 := recordDeviceLogin st deviceData (some user.id) fresh.deviceRecId now
          let riskAssessment := assessLoginRisk st1 user.id deviceData "webauthn" now hour dayOfWeek
          if riskAssessment.recommendation = .block then
            (createSecurityLog st1 user.id "WebAuthn login blocked due to high risk",
             .forbidden "LOGIN_BLOCKED")
          else
            let sessionId := fresh.sessionIdHex
            let payload : JWTPayload :=
              { userId := user.id, email := user.email, sessionId := sessionId
                authMethod := "webauthn", riskScore := riskAssessment.overallRisk
                deviceFingerprint := deviceData.fingerprint }
            let tokenData := generateTokenPair payload fresh.refreshToken now
            let ins : InsertAuthSession :=
              { userId := user.id
                sessionToken := jwtEncode tokenData.accessToken
                refreshToken := tokenData.refreshToken
                deviceFingerprint := deviceData.fingerprint
                ipAddress := deviceData.ipAddress
                userAgent := deviceData.userAgent
                authMethod := "webauthn"
                riskScore := riskAssessment.overallRisk
                expiresAt := tokenData.expiresAt }
            let st2 := (createAuthSession st1 ins fresh.sessionRecId now).1
            let st3 := createSecurityLog st2 user.id "WebAuthn authentication successful"
            (st3, .success tokenData.accessToken tokenData.refreshToken sessionId
                    tokenData.expiresAt riskAssessment.requiresAdditionalAuth
                    riskAssessment.overallRisk)

/-! ## Refresh route (server/routes/auth.ts, `POST /auth/refresh`) -/

inductive RefreshResponse
  | badRequest (code : String)
  | unauthorized (code : String)
  | notFound (code : String)
  | success (accessToken : JWTPayload) (refreshToken : String) (expiresAt : Int)
  deriving Repr, DecidableEq

structure RefreshFresh where
  newSessionIdHex : String
  newSessionRecId : String
  newRefreshToken : String
  deriving Repr, DecidableEq

/-- `POST /auth/refresh`: looks for the presented refresh token among
`storage.getAuthSessionsByUser('')` — the sessions of the empty-string user
id — then rotates: deactivate the old session, mint a new pair, create a new
session bound to the same device/method/risk. -/
def refreshHandler (st : MemStorage) (refreshToken : String)
    (fresh : RefreshFresh) (now : Int) : MemStorage × RefreshResponse :=
  if refreshToken = "" then (st, .badRequest "REFRESH_TOKEN_MISSING")
  else
    let sessions := getAuthSessionsByUser st ""
    match sessions.find? fun s => s.refreshToken == refreshToken && s.isActive with
    | none => (st, .unauthorized "REFRESH_TOKEN_INVALID")
    | some session =>
        if session.expiresAt < now then (st, .unauthorized "REFRESH_TOKEN_INVALID")
        else
          match getUser st session.userId with
          | none => (st, .notFound "USER_NOT_FOUND")
          | some user =>
              let payload : JWTPayload :=
                { userId := user.id, email := user.email
                  sessionId := fresh.newSessionIdHex
                  authMethod := session.authMethod
                  riskScore := session.riskScore
                  deviceFingerprint := session.deviceFingerprint }
              let tokenData := generateTokenPair payload fresh.newRefreshToken now
              let st1 := (deactivateAuthSessionBySessionId st session.id).1
              let ins : InsertAuthSession :=
                { userId := user.id
                  sessionToken := jwtEncode tokenData.accessToken
                  refreshToken := tokenData.refreshToken
                  deviceFingerprint := session.deviceFingerprint
                  ipAddress := session.ipAddress
                  userAgent := session.userAgent
                  authMethod := session.authMethod
                  riskScore := session.riskScore
                  expiresAt := tokenData.expiresAt }
              let st2 := (createAuthSession st1 ins fresh.newSessionRecId now).1
              let st3 := createSecurityLog st2 user.id "Token refreshed successfully"
              (st3, .success tokenData.accessToken tokenData.refreshToken
                      tokenData.expiresAt)

/-! ## MFA security service (server/utils/mfaSecurity.ts)

The keyed MAC (`HMAC-SHA256` with the server secret) is abstracted as an
injected function `hmac : String → String`; `constantTimeCompare` of two MAC
hex strings decides exactly string equality.  A wire token is its structured
payload (the JSON/base64 round-trip is the injected `serialize`) together
with the signature string. -/

structure MFAApprovalToken where
  challengeCode : String
  userId : String
  deviceFingerprint : String
  timestamp : Int
  nonce : String
  deriving Repr, DecidableEq

/-- Token validity window: 5 minutes in milliseconds. -/
def tokenValidityMs : Int := 5 * 60 * 1000

/-- `MFASecurityService.generateApprovalToken`: signed payload binding
challenge code, user id, device fingerprint, timestamp and nonce. -/
def generateApprovalToken (hmac : String → String)
    (serialize : MFAApprovalToken → String)
    (challengeCode userId deviceFingerprint : String)
    (now : Int) (nonce : String) : MFAApprovalToken × String :=
  let payload : MFAApprovalToken :=
    { challengeCode := challengeCode, userId := userId
      deviceFingerprint := deviceFingerprint, timestamp := now, nonce := nonce }
  (payload, hmac (serialize payload))

inductive TokenVerifyResult
  | valid (payload : MFAApprovalToken)
  | invalid (error : String)
  deriving Repr, DecidableEq

/-- `MFASecurityService.verifyApprovalToken`: checks, in order, the MAC
signature, the 5-minute age bound, the bound challenge code and the bound
user id.  The bound device fingerprint is never compared against anything. -/
def verifyApprovalToken (hmac : String → String)
    (serialize : MFAApprovalToken → String)
    (token : MFAApprovalToken × String)
    (expectedChallengeCode expectedUserId : String) (now : Int) :
    TokenVerifyResult :=
  if token.2 ≠ hmac (serialize token.1) then .invalid "Invalid signature"
  else if now - token.1.timestamp > tokenValidityMs then .invalid "Token expired"
  else if token.1.challengeCode ≠ expectedChallengeCode then
    .invalid "Challenge code mismatch"
  else if token.1.userId ≠ expectedUserId then .invalid "User ID mismatch"
  else .valid token.1

/-- Data bound into a mobile approval challenge
(`"challengeCode:userId:timestamp:nonce"`). -/
structure ApprovalChallengeData where
  challengeCode : String
  userId : String
  timestamp : Int
  nonce : String
  deriving Repr, DecidableEq

/-- The challenge string that is MACed:
`challengeCode + ':' + userId + ':' + timestamp + ':' + nonce`. -/
def serializeApprovalChallenge (c : ApprovalChallengeData) : String :=
  c.challengeCode ++ ":" ++ c.userId ++ ":" ++ toString c.timestamp ++ ":" ++ c.nonce

inductive ChallengeVerifyResult
  | valid (challengeCode userId : String)
  | invalid (error : String)
  deriving Repr, DecidableEq

/-- `MFASecurityService.verifyApprovalChallenge` (default `maxAge` 5 min):
checks the timestamp first, then that the solution is the MAC of the
challenge data. -/
def verifyApprovalChallenge (hmac : String → String)
    (challenge : ApprovalChallengeData) (solution : String) (now : Int) :
    ChallengeVerifyResult :=
  if now - challenge.timestamp > 300000 then .invalid "Challenge expired"
  else if solution ≠ hmac (serializeApprovalChallenge challenge) then
    .invalid "Invalid solution"
  else .valid challenge.challengeCode challenge.userId

/-! ## Push notification service (server/services/pushNotification.ts) -/

/-- `PushNotificationService.approveMFAChallenge`: re-reads the challenge
(present and unexpired), checks ownership when a user id is supplied,
re-checks expiry, then calls the storage-level approval.  Nothing on this
path consults the challenge's current approval state. -/
def approveMFAChallengeService (st : MemStorage) (challengeCode : String)
    (userId : Option String) (now : Int) : MemStorage × Bool :=
  match getMfaChallenge st challengeCode now with
  | none => (st, false)
  | some challenge =>
      if (match userId with
          | some u => u ≠ "" && challenge.userId ≠ u
          | none => false) then (st, false)
      else if challenge.expiresAt < now then (st, false)
      else
        let (st1, ok) := approveMfaChallengeStore st challengeCode now
        if ok then
          (createSecurityLog st1 challenge.userId
            ("MFA challenge approved: " ++ challengeCode), true)
        else (st1, ok)

/-! ## MFA approve route (server/routes/mfa.ts,
`POST /mfa/challenge/:challengeCode/approve`) -/

/-- The approval proof carried in the request body: a signed approval token,
a challenge/solution pair, or neither. -/
inductive ApprovalProof
  | withToken (token : MFAApprovalToken × String)
  | withChallenge (challenge : ApprovalChallengeData) (solution : String)
  | neither
  deriving Repr, DecidableEq

inductive ApproveResponse
  | badRequest (code : String)
  | success
  deriving Repr, DecidableEq

/-- The approve handler, after `authenticateToken` has established `userId`.
`requestFingerprint` is the device fingerprint `generateFingerprint(req)`
computes from the approving request; on the token path it is computed and
then never used — approval-token verification receives only the token, the
challenge code and the user id. -/
def mfaApproveHandler (hmac : String → String)
    (serialize : MFAApprovalToken → String)
    (st : MemStorage) (challengeCode : String) (userId : String)
    (requestFingerprint : String) (proof : ApprovalProof) (now : Int) :
    MemStorage × ApproveResponse :=
  if challengeCode = "" then (st, .badRequest "MISSING_CHALLENGE_CODE")
  else
    let verified : Option String :=
      match proof with
      | .withToken token =>
          let _ := requestFingerprint
          match verifyApprovalToken hmac serialize token challengeCode userId now with
          | .valid _ => none
          | .invalid _ => some "INVALID_APPROVAL_TOKEN"
      | .withChallenge challenge solution =>
          match verifyApprovalChallenge hmac challenge solution now with
          | .valid code uid =>
              if code ≠ challengeCode ∨ uid ≠ userId then
                some "INVALID_CHALLENGE_SOLUTION"
              else none
          | .invalid _ => some "INVALID_CHALLENGE_SOLUTION"
      | .neither => some "MISSING_APPROVAL_PROOF"
    match verified with
    | some code => (st, .badRequest code)
    | none =>
        let (st1, ok) := approveMFAChallengeService st challengeCode (some userId) now
        if ok then (st1, .success) else (st1, .badRequest "APPROVAL_FAILED")

/-! ## Rate limiter (server/middleware/rateLimiter.ts) -/

structure RateLimitEntry where
  count : Nat
  firstAttempt : Int
  lastAttempt : Int
  deriving Repr, DecidableEq

structure RateLimitConfig where
  windowMs : Int
  maxAttempts : Nat
  blockDuration : Option Int
  deriving Repr, DecidableEq

/-- The `default` endpoint configuration: 20 attempts per minute. -/
def defaultRateLimitConfig : RateLimitConfig :=
  { windowMs := 60000, maxAttempts := 20, blockDuration := none }

/-- The `mfaChallenge` configuration: 3 attempts per 5 min, block 15 min. -/
def mfaChallengeRateLimitConfig : RateLimitConfig :=
  { windowMs := 5 * 60 * 1000, maxAttempts := 3, blockDuration := some (15 * 60 * 1000) }

inductive RateLimitOutcome
  | allow
  | reject (status : Nat) (retryAfter : Int)
  deriving Repr, DecidableEq

/-- `Math.ceil(x / 1000)` for a nonnegative integer `x`. -/
def ceilDiv1000 (x : Int) : Int :=
  (x + 999) / 1000

/-- One pass through the middleware returned by
`RateLimiter.createRateLimiter`: first attempt and window expiry reset the
entry; inside the window a configured block duration can reject with the
remaining block time; otherwise the count is incremented and exceeding the
maximum rejects with `Math.ceil(windowMs / 1000)` — the full window, not the
remainder. -/
def rateLimitStep (cfg : RateLimitConfig)
    (attempts : List (String × RateLimitEntry)) (clientKey : String)
    (now : Int) : RateLimitOutcome × List (String × RateLimitEntry) :=
  match mapGet attempts clientKey with
  | none =>
      (.allow, mapSet attempts clientKey ⟨1, now, now⟩)
  | some entry =>
      if now - entry.firstAttempt > cfg.windowMs then
        (.allow, mapSet attempts clientKey ⟨1, now, now⟩)
      else
        let blocked :=
          match cfg.blockDuration with
          | some bd =>
              if entry.count ≥ cfg.maxAttempts ∧ now - entry.lastAttempt < bd then
                some (ceilDiv1000 (bd - (now - entry.lastAttempt)))
              else none
          | none => none
        match blocked with
        | some retry => (.reject 429 retry, attempts)
        | none =>
            let entry' : RateLimitEntry :=
              ⟨entry.count + 1, entry.firstAttempt, now⟩
            let attempts' := mapSet attempts clientKey entry'
            if entry'.count > cfg.maxAttempts then
              (.reject 429 (ceilDiv1000 cfg.windowMs), attempts')
            else
              (.allow, attempts')

/-! ## Concrete instances used to evaluate the operations -/

def pwUser : User := ⟨"u1", "a@b.c", "bc-pw"⟩

/-- A stand-in for `bcrypt.compare`: the stored hash of `p` is `"bc-" ++ p`. -/
def pwVerify : String → String → Bool := fun p h => h == "bc-" ++ p

def loginStore : MemStorage := { MemStorage.empty with users := [("u1", pwUser)] }

/-- Signals of a device whose fingerprint is unknown to `loginStore`. -/
def loginDevice : DeviceFingerprintData :=
  ⟨"fp-new", "9.9.9.9", "UA", some "Windows", some "Chrome", none, none, none⟩

def loginFreshEx : LoginFresh := ⟨"dev-rec-1", "sess-rec-1", "aabbccdd", "rt-0"⟩

/-- The access-token payload the login handler mints for `pwUser` with the
freshness choices of `loginFreshEx`. -/
def loginTokenEx : JWTPayload := ⟨"u1", "a@b.c", "aabbccdd", "password", 10, "fp-new"⟩

/-- `loginStore` right after `recordDeviceLogin` — the store state at the point
where the handler would have consulted the risk engine. -/
def loginStorePostDevice : MemStorage :=
  recordDeviceLogin loginStore loginDevice (some "u1") "dev-rec-1" 0

def refreshSessionEx : AuthSession :=
  ⟨"s1", "u1", "tok1", "rt1", "fpX", "1.1.1.1", "UA", "password", 10, true, 9999999, 0⟩

def refreshStore : MemStorage :=
  { MemStorage.empty with
      users := [("u1", pwUser)]
      authSessions := [("s1", refreshSessionEx)] }

def mfaChallengeEx : MfaChallenge := ⟨"m1", "c1", "u1", none, none, 600000, 0⟩

def mfaStore : MemStorage := { MemStorage.empty with mfaChallenges := [("c1", mfaChallengeEx)] }

def mfaApproveOnce : MemStorage × Bool :=
  approveMFAChallengeService mfaStore "c1" (some "u1") 0

def mfaApproveTwice : MemStorage × Bool :=
  approveMFAChallengeService mfaApproveOnce.1 "c1" (some "u1") 1000

def credEx : WebauthnCredential := ⟨"w1", "u1", "cred1", "pk", 5, 0⟩

def credStore : MemStorage :=
  { MemStorage.empty with webauthnCredentials := [("w1", credEx)] }

/-- A concrete keyed MAC standing in for HMAC-SHA256 under the server secret. -/
def hmacEx : String → String := fun s => "mac|" ++ s

/-- A concrete injective payload serialisation standing in for JSON encoding. -/
def serializeTokenEx : MFAApprovalToken → String := fun p =>
  p.challengeCode ++ "|" ++ p.userId ++ "|" ++ p.deviceFingerprint ++ "|"
    ++ toString p.timestamp ++ "|" ++ p.nonce

/-- An approval token generated for device fingerprint `"fp-A"`. -/
def approvalTokenEx : MFAApprovalToken × String :=
  generateApprovalToken hmacEx serializeTokenEx "c1" "u1" "fp-A" 0 "n1"

def aliceDevice : DeviceFingerprintRec :=
  ⟨"d1", "fpa", some "alice", "1.2.3.4", some "Windows", some "Chrome",
   none, none, none, 50, false, 0, 0, 1⟩

def bobDevice : DeviceFingerprintRec :=
  ⟨"d2", "fpb", some "bob", "1.2.3.4", some "Windows", some "Chrome",
   none, none, none, 20, false, 0, 0, 3⟩

def bobSession : AuthSession :=
  ⟨"sb", "bob", "tb", "rb", "fpb", "1.2.3.4", "UA", "webauthn", 10, true, 9999999, 0⟩

/-- Store in which fingerprint `"fpa"` is bound to `alice` while `bob` owns a
device with the same IP address and has a short webauthn login history. -/
def sharedDeviceStore : MemStorage :=
  { MemStorage.empty with
      deviceFingerprints := [("fpa", aliceDevice), ("fpb", bobDevice)]
      authSessions := [("sb", bobSession)] }

/-- A login observation of `alice`'s device fingerprint. -/
def sharedDeviceData : DeviceFingerprintData :=
  ⟨"fpa", "1.2.3.4", "UA", some "Windows", some "Chrome", none, none, none⟩

/-- Store holding only `alice`'s device: `bob` has no device sharing the IP. -/
def soloDeviceStore : MemStorage :=
  { MemStorage.empty with deviceFingerprints := [("fpa", aliceDevice)] }

/-- Rate-limiter state after 20 attempts by client `"k"` at time 0 under the
default configuration (20 attempts per 60 s window). -/
def rlState20 : List (String × RateLimitEntry) :=
  (List.replicate 20 (0 : Int)).foldl
    (fun s t => (rateLimitStep defaultRateLimitConfig s "k" t).2) []

/-! ## General lemmas about the map embedding -/

theorem mapValues_mapSet_subset {α : Type} (m : List (String × α)) (k : String)
    (v x : α) (hx : x ∈ mapValues (mapSet m k v)) : x ∈ mapValues m ∨ x = v := by
  unfold mapSet at hx
  by_cases hc : m.any fun p => p.1 == k
  · rw [if_pos hc] at hx
    unfold mapValues at hx ⊢
    rw [List.map_map] at hx
    rcases List.mem_map.1 hx with ⟨p, hp, hpx⟩
    by_cases hk : p.1 == k
    · right
      simp only [Function.comp, if_pos hk] at hpx
      exact hpx.symm
    · left
      simp only [Function.comp, if_neg hk] at hpx
      exact hpx ▸ List.mem_map_of_mem _ hp
  · rw [if_neg hc] at hx
    unfold mapValues at hx ⊢
    rw [List.map_append] at hx
    rcases List.mem_append.1 hx with h | h
    · exact Or.inl h
    · right
      simpa using h

theorem self_mem_mapValues_mapSet {α : Type} (m : List (String × α)) (k : String)
    (v : α) : v ∈ mapValues (mapSet m k v) := by
  unfold mapSet
  by_cases hc : m.any fun p => p.1 == k
  · rw [if_pos hc]
    rcases List.any_eq_true.1 hc with ⟨p, hp, hpk⟩
    unfold mapValues
    rw [List.map_map]
    refine List.mem_map.2 ⟨p, hp, ?_⟩
    simp only [Function.comp, if_pos hpk]
  · rw [if_neg hc]
    unfold mapValues
    rw [List.map_append]
    exact List.mem_append.2 (Or.inr (by simp))

/-! ## Preservation and guard lemmas -/

theorem recordDeviceLogin_authSessions (st : MemStorage)
    (data : DeviceFingerprintData) (uid : Option String) (fid : String)
    (now : Int) :
    (recordDeviceLogin st data uid fid now).authSessions = st.authSessions := by
  unfold recordDeviceLogin
  split
  · unfold updateDeviceFingerprintLogin
    split <;> rfl
  · rfl

theorem authenticateToken_of_no_session (st : MemStorage) (p : JWTPayload)
    (now : Int) (h : getAuthSessionBySessionId st p.sessionId = none) :
    authenticateToken st (some p) now = .err 401 "SESSION_EXPIRED" := by
  simp only [authenticateToken, verifyAccessToken, h]

theorem getAuthSessionBySessionId_mapSet_none (st : MemStorage)
    (m : List (String × AuthSession)) (k : String) (v : AuthSession)
    (sid : String) (hst : st.authSessions = mapSet m k v)
    (hv : v.id ≠ sid) (hm : ∀ s ∈ mapValues m, s.id ≠ sid) :
    getAuthSessionBySessionId st sid = none := by
  unfold getAuthSessionBySessionId
  rw [hst]
  refine List.find?_eq_none.2 fun s hs => ?_
  rcases mapValues_mapSet_subset m k v s hs with h | rfl
  · simp [hm s h]
  · simp [hv]

theorem getAuthSessionBySessionId_mapSet_isSome (st : MemStorage)
    (m : List (String × AuthSession)) (k : String) (v : AuthSession)
    (sid : String) (hst : st.authSessions = mapSet m k v)
    (hid : v.id = sid) (hact : v.isActive = true) :
    (getAuthSessionBySessionId st sid).isSome := by
  unfold getAuthSessionBySessionId
  rw [hst]
  exact List.find?_isSome.2 ⟨v, self_mem_mapValues_mapSet m k v, by simp [hid, hact]⟩

/-! ## Risk-score bound lemmas -/

theorem analyzeRisk_le_100 (st : MemStorage) (data : DeviceFingerprintData)
    (userId : Option String) : analyzeRisk st data userId ≤ 100 := by
  unfold analyzeRisk
  exact min_le_left _ _

theorem analyzeBehaviorRisk_le_100 (st : MemStorage) (userId : String)
    (now : Int) : analyzeBehaviorRisk st userId now ≤ 100 := by
  simp only [analyzeBehaviorRisk]
  split_ifs <;> omega

theorem analyzeTimeRisk_le_100 (hour dayOfWeek : Nat) :
    analyzeTimeRisk hour dayOfWeek ≤ 100 := by
  simp only [analyzeTimeRisk]
  split_ifs <;> omega

theorem analyzeLocationRisk_le_100 (st : MemStorage) (userId currentIp : String) :
    analyzeLocationRisk st userId currentIp ≤ 100 := by
  simp only [analyzeLocationRisk]
  split_ifs <;> omega

theorem combineOverallRisk_le_100 (dev beh time loc : Nat)
    (hd : dev ≤ 100) (hb : beh ≤ 100) (ht : time ≤ 100) (hl : loc ≤ 100) :
    combineOverallRisk dev beh time loc ≤ 100 := by
  unfold combineOverallRisk
  omega

theorem assessLoginRisk_overallRisk_eq (st : MemStorage) (userId : String)
    (deviceData : DeviceFingerprintData) (authMethod : String) (now : Int)
    (hour dayOfWeek : Nat) :
    (assessLoginRisk st userId deviceData authMethod now hour dayOfWeek).overallRisk
      = combineOverallRisk (analyzeRisk st deviceData (some userId))
          (analyzeBehaviorRisk st userId now) (analyzeTimeRisk hour dayOfWeek)
          (analyzeLocationRisk st userId deviceData.ipAddress) := rfl

/-! ## Claim theorems -/

/-- C1: the claim says a password login from an unknown device produces a risk
assessment with overall score ≥ 60 and outcome `mfa_required`
(`requiresMfa = true`).  The login handler instead uses a hardcoded low-risk
assessment: at a concrete store whose device fingerprint is unknown, with a
matching password, the response reports `requiresMfa = false` and risk score
10 — while `RiskEngine.assessLoginRisk`, evaluated at the same point (after
device recording), would have demanded MFA for the password method. -/
theorem login_handler_skips_risk_engine :
    (loginHandler loginStore "a@b.c" "pw" loginDevice pwVerify loginFreshEx 0).2
      = .success loginTokenEx "rt-0" "aabbccdd" 3600000 false 10
    ∧ getDeviceFingerprint loginStore loginDevice.fingerprint = none
    ∧ (assessLoginRisk loginStorePostDevice "u1" loginDevice "password" 0 12 3).recommendation
        = .mfaRequired
    ∧ (assessLoginRisk loginStorePostDevice "u1" loginDevice "password" 0 12 3).requiresAdditionalAuth
        = true := by
  decide

/-- C2: the claim says presenting the refresh token of an active, unexpired
session succeeds and rotates the session.  The handler resolves candidate
sessions with `getAuthSessionsByUser('')`, which matches no real session: at
a concrete store holding exactly such a session, the refresh request is
rejected with `REFRESH_TOKEN_INVALID` and the store is left unchanged (the
prior session is not deactivated). -/
theorem refresh_rejects_valid_session :
    ((mapValues refreshStore.authSessions).find?
        fun s => s.refreshToken == "rt1" && s.isActive) = some refreshSessionEx
    ∧ refreshSessionEx.isActive = true
    ∧ (0 : Int) < refreshSessionEx.expiresAt
    ∧ refreshHandler refreshStore "rt1" ⟨"nh", "nid", "nrt"⟩ 0
        = (refreshStore, .unauthorized "REFRESH_TOKEN_INVALID") := by
  decide

/-- C4: the claim says an approved MFA challenge cannot be consumed a second
time.  Neither `PushNotificationService.approveMFAChallenge` nor the storage
layer consults the approval state: at a concrete store, approving the same
unexpired challenge twice succeeds both times, the second time on a record
already marked approved. -/
theorem mfa_challenge_double_approval_succeeds :
    mfaApproveOnce.2 = true
    ∧ (getMfaChallenge mfaApproveOnce.1 "c1" 1000).map (·.isApproved)
        = some (some true)
    ∧ mfaApproveTwice.2 = true := by
  decide

/-- C5 counterexample: the claim says a counter update with a value ≤ the
stored counter leaves the store unchanged and reports failure.  At a concrete
store holding a credential with counter 5, updating to 3 reports success and
the stored counter becomes 3. -/
theorem webauthn_counter_regression_accepted :
    credEx.counter = 5
    ∧ (updateWebauthnCredentialCounter credStore "cred1" 3 100).2 = true
    ∧ (getWebauthnCredentialByCredentialId
          (updateWebauthnCredentialCounter credStore "cred1" 3 100).1 "cred1").map
        (·.counter) = some 3 := by
  decide

/-- C6 counterexample: the claim says an approval token generated for one
device fingerprint, presented from a request with a different fingerprint, is
rejected.  An approval token bound to fingerprint `"fp-A"`, presented on the
approve route by a request whose computed fingerprint is `"fp-B"` (all other
bound fields matching, within the 5-minute window), is accepted and the
challenge is approved. -/
theorem approval_token_fingerprint_mismatch_accepted :
    approvalTokenEx.1.deviceFingerprint = "fp-A"
    ∧ ("fp-A" : String) ≠ "fp-B"
    ∧ (mfaApproveHandler hmacEx serializeTokenEx mfaStore "c1" "u1" "fp-B"
          (.withToken approvalTokenEx) 1000).2 = .success := by
  decide

/-- C7 counterexample: the claim says a fingerprint bound to a different
principal always yields device risk ≥ 80 and an overall recommendation other
than `allow`.  At a concrete store where `alice`'s device is observed with
`bob`'s login and `bob` owns another device on the same IP, the device risk
is 65 (the same-IP correlation subtracts 15) and the overall assessment for
a webauthn login recommends `allow`. -/
theorem shared_device_risk_below_80_and_allow :
    (getDeviceFingerprint sharedDeviceStore sharedDeviceData.fingerprint).map
        (·.userId) = some (some "alice")
    ∧ ("alice" : String) ≠ "bob"
    ∧ analyzeRisk sharedDeviceStore sharedDeviceData (some "bob") = 65
    ∧ (65 : Nat) < 80
    ∧ (assessLoginRisk sharedDeviceStore "bob" sharedDeviceData "webauthn" 0 12 3).recommendation
        = .allow := by
  decide

/-- C8 counterexample: the claim says the assessment does not depend on the
current wall-clock time.  With all explicit inputs identical, running the
assessment at 03:00 and at 12:00 on the same weekday yields different overall
scores (59 vs 54). -/
theorem assessment_depends_on_wall_clock :
    (assessLoginRisk MemStorage.empty "u1" loginDevice "password" 0 3 3).overallRisk = 59
    ∧ (assessLoginRisk MemStorage.empty "u1" loginDevice "password" 0 12 3).overallRisk = 54
    ∧ (assessLoginRisk MemStorage.empty "u1" loginDevice "password" 0 3 3).overallRisk
        ≠ (assessLoginRisk MemStorage.empty "u1" loginDevice "password" 0 12 3).overallRisk := by
  decide

/-- C10 counterexample: the claim says the (N+1)th attempt within the window
is rejected with a retry-after equal to the time remaining in the window.
After 20 attempts at time 0 under the default configuration (20 per 60 s),
the 21st attempt at t = 30 s is rejected with retry-after 60 — the full
window — while the remaining window is 30 s. -/
theorem rate_limit_retry_after_full_window :
    mapGet rlState20 "k" = some ⟨20, 0, 0⟩
    ∧ (rateLimitStep defaultRateLimitConfig rlState20 "k" 30000).1 = .reject 429 60
    ∧ ceilDiv1000 (defaultRateLimitConfig.windowMs - 30000) = 30
    ∧ (60 : Int) ≠ 30 := by
  decide

/-- C9: for all inputs the aggregated overall risk score lies in [0, 100];
the same bound holds for the weighted aggregation at any sub-factor values up
to 100 (which covers the sub-factor error-fallback scores 70, 40 and 50), and
for the top-level error-fallback assessment (score 80). -/
theorem overall_risk_in_range :
    (∀ (st : MemStorage) (userId : String) (deviceData : DeviceFingerprintData)
        (authMethod : String) (now : Int) (hour dayOfWeek : Nat),
        0 ≤ (assessLoginRisk st userId deviceData authMethod now hour dayOfWeek).overallRisk
        ∧ (assessLoginRisk st userId deviceData authMethod now hour dayOfWeek).overallRisk ≤ 100)
    ∧ (∀ dev beh time loc : Nat, dev ≤ 100 → beh ≤ 100 → time ≤ 100 → loc ≤ 100 →
        0 ≤ combineOverallRisk dev beh time loc ∧ combineOverallRisk dev beh time loc ≤ 100)
    ∧ (0 ≤ riskAssessmentFallback.overallRisk ∧ riskAssessmentFallback.overallRisk ≤ 100) := by
  refine ⟨fun st userId deviceData authMethod now hour dayOfWeek => ⟨Nat.zero_le _, ?_⟩,
          fun dev beh time loc hd hb ht hl => ⟨Nat.zero_le _, combineOverallRisk_le_100 dev beh time loc hd hb ht hl⟩,
          Nat.zero_le _, by decide⟩
  rw [assessLoginRisk_overallRisk_eq]
  exact combineOverallRisk_le_100 _ _ _ _
    (analyzeRisk_le_100 st deviceData (some userId))
    (analyzeBehaviorRisk_le_100 st userId now)
    (analyzeTimeRisk_le_100 hour dayOfWeek)
    (analyzeLocationRisk_le_100 st userId deviceData.ipAddress)

/-- Witness for C9: the aggregation bound instantiated at the sub-factor
error-fallback values (device 70, behaviour 40, time 60, location 50). -/
theorem overall_risk_in_range_witness :
    0 ≤ combineOverallRisk 70 40 60 50 ∧ combineOverallRisk 70 40 60 50 ≤ 100 :=
  overall_risk_in_range.2.1 70 40 60 50 (by decide) (by decide) (by decide) (by decide)

/-- C8 amended: the assessment is deterministic given the clock — it depends
on the wall-clock reading only through the behavioural recency window (`now`)
and the temporal factor of the hour/day of week: whenever two clock readings
give the same temporal factor, the entire assessment coincides. -/
theorem assessment_deterministic_given_clock (st : MemStorage) (userId : String)
    (deviceData : DeviceFingerprintData) (authMethod : String) (now : Int)
    (hour₁ dayOfWeek₁ hour₂ dayOfWeek₂ : Nat)
    (h : analyzeTimeRisk hour₁ dayOfWeek₁ = analyzeTimeRisk hour₂ dayOfWeek₂) :
    assessLoginRisk st userId deviceData authMethod now hour₁ dayOfWeek₁
      = assessLoginRisk st userId deviceData authMethod now hour₂ dayOfWeek₂ := by
  unfold assessLoginRisk
  rw [h]

/-- Witness for C8: 03:00 on a Monday and 04:00 on a Tuesday share the
late-night temporal factor, so the assessments coincide. -/
theorem assessment_deterministic_given_clock_witness :
    assessLoginRisk MemStorage.empty "u1" loginDevice "password" 0 3 1
      = assessLoginRisk MemStorage.empty "u1" loginDevice "password" 0 4 2 :=
  assessment_deterministic_given_clock MemStorage.empty "u1" loginDevice
    "password" 0 3 1 4 2 (by decide)

/-- C6 amended: verification of a signed MFA approval token accepts exactly
when the MAC signature matches, the token is at most 5 minutes old, and the
bound challenge code and principal id equal the expected ones; the bound
device fingerprint is not compared against the requesting device, so a
fingerprint mismatch alone is not rejected. -/
theorem approval_token_verification_characterized
    (hmac : String → String) (serialize : MFAApprovalToken → String)
    (token : MFAApprovalToken × String) (expectedChallengeCode expectedUserId : String)
    (now : Int) :
    verifyApprovalToken hmac serialize token expectedChallengeCode expectedUserId now
        = .valid token.1
      ↔ (token.2 = hmac (serialize token.1)
          ∧ now - token.1.timestamp ≤ tokenValidityMs
          ∧ token.1.challengeCode = expectedChallengeCode
          ∧ token.1.userId = expectedUserId) := by
  unfold verifyApprovalToken
  split_ifs with h1 h2 h3 h4 <;> simp_all
  omega

/-- C5 amended: the store-level counter update ignores the stored value — it
reports failure only when no credential matches the id, and for an existing
credential it overwrites the counter with the given value (any value,
including values ≤ the stored counter) and reports success; monotonicity is
not enforced by the store. -/
theorem webauthn_counter_update_unconditional (st : MemStorage)
    (credentialId : String) (counter : Nat) (now : Int) :
    (getWebauthnCredentialByCredentialId st credentialId = none →
        updateWebauthnCredentialCounter st credentialId counter now = (st, false))
    ∧ (∀ cred, getWebauthnCredentialByCredentialId st credentialId = some cred →
        updateWebauthnCredentialCounter st credentialId counter now
          = (overwriteWebauthnCounter st cred counter now, true)) := by
  constructor
  · intro h
    simp only [updateWebauthnCredentialCounter, h]
  · intro cred h
    simp only [updateWebauthnCredentialCounter, overwriteWebauthnCounter, h]

/-- Witness for C5: at the concrete store, the regressing update to counter 3
succeeds and overwrites in place. -/
theorem webauthn_counter_update_unconditional_witness :
    updateWebauthnCredentialCounter credStore "cred1" 3 100
      = (overwriteWebauthnCounter credStore credEx 3 100, true) :=
  (webauthn_counter_update_unconditional credStore "cred1" 3 100).2 credEx (by decide)

/-- C10 amended: when a client key has already made the configured maximum of
attempts within the window (and the configuration has no block duration, as
the default one does), the next attempt is rejected with HTTP 429 and a
retry-after equal to the full configured window in seconds,
`⌈windowMs / 1000⌉`, regardless of how much of the window remains. -/
theorem rate_limit_rejects_with_full_window (cfg : RateLimitConfig)
    (attempts : List (String × RateLimitEntry)) (clientKey : String)
    (now : Int) (e : RateLimitEntry)
    (hbd : cfg.blockDuration = none)
    (hfind : mapGet attempts clientKey = some e)
    (hwin : now - e.firstAttempt ≤ cfg.windowMs)
    (hmax : cfg.maxAttempts ≤ e.count) :
    (rateLimitStep cfg attempts clientKey now).1
      = .reject 429 (ceilDiv1000 cfg.windowMs) := by
  unfold rateLimitStep
  simp only [hfind, hbd]
  rw [if_neg (by omega : ¬ now - e.firstAttempt > cfg.windowMs)]
  split
  · rfl
  · omega

/-- Witness for C10: the 21st attempt of client `"k"` halfway through the
default 60-second window is rejected with the full 60-second retry-after. -/
theorem rate_limit_rejects_with_full_window_witness :
    (rateLimitStep defaultRateLimitConfig rlState20 "k" 30000).1
      = .reject 429 (ceilDiv1000 defaultRateLimitConfig.windowMs) :=
  rate_limit_rejects_with_full_window defaultRateLimitConfig rlState20 "k" 30000
    ⟨20, 0, 0⟩ (by decide) (by decide) (by decide) (by decide)

/-! ## Device-risk lemmas for the different-principal case -/

theorem analyzeRiskBase_diff_user (st : MemStorage) (data : DeviceFingerprintData)
    (dev : DeviceFingerprintRec) (u v : String)
    (hdev : getDeviceFingerprint st data.fingerprint = some dev)
    (hown : dev.userId = some u) (hu : u ≠ "") (hne : u ≠ v) :
    analyzeRiskBase st data (some v) = 80 := by
  have hb : (u == v) = false := beq_eq_false_iff_ne.mpr hne
  simp only [analyzeRiskBase, hdev, hown, jsStrEqOpt, optTruthy, hb]
  simp [hu]

theorem analyzeRiskIpAdjust_ge_65 (st : MemStorage) (data : DeviceFingerprintData)
    (v : String) : 65 ≤ analyzeRiskIpAdjust st data (some v) 80 := by
  simp only [analyzeRiskIpAdjust]
  split_ifs <;> decide

theorem analyzeRiskIpAdjust_no_shared_ip (st : MemStorage)
    (data : DeviceFingerprintData) (v : String)
    (hemp : (getDeviceFingerprints st v).filter (fun d => d.ipAddress == data.ipAddress) = []) :
    analyzeRiskIpAdjust st data (some v) 80 = 80 := by
  simp only [analyzeRiskIpAdjust, hemp]
  simp

theorem analyzeRiskAdjustments_ge_ipAdjust (st : MemStorage)
    (data : DeviceFingerprintData) (userId : Option String) (base : Nat) :
    analyzeRiskIpAdjust st data userId base ≤ analyzeRiskAdjustments st data userId base := by
  simp only [analyzeRiskAdjustments]
  split_ifs <;> omega

/-- C7 amended: a fingerprint bound to a different principal forces the base
device risk to 80, which later adjustments can lower by at most 15 (the
same-IP correlation): the returned device risk is always ≥ 65, and ≥ 80 when
the attempting principal has no stored device sharing the request IP.  (The
overall recommendation can nevertheless be `allow` — see the accompanying
counterexample.) -/
theorem shared_device_forces_high_risk (st : MemStorage)
    (data : DeviceFingerprintData) (dev : DeviceFingerprintRec) (u v : String)
    (hdev : getDeviceFingerprint st data.fingerprint = some dev)
    (hown : dev.userId = some u) (hu : u ≠ "") (hne : u ≠ v) :
    65 ≤ analyzeRisk st data (some v)
    ∧ ((getDeviceFingerprints st v).filter (fun d => d.ipAddress == data.ipAddress) = [] →
        80 ≤ analyzeRisk st data (some v)) := by
  have hbase := analyzeRiskBase_diff_user st data dev u v hdev hown hu hne
  constructor
  · unfold analyzeRisk
    rw [hbase]
    exact le_min (by omega)
      (le_trans (analyzeRiskIpAdjust_ge_65 st data v)
        (analyzeRiskAdjustments_ge_ipAdjust st data (some v) 80))
  · intro hemp
    unfold analyzeRisk
    rw [hbase]
    have h2 := analyzeRiskAdjustments_ge_ipAdjust st data (some v) 80
    rw [analyzeRiskIpAdjust_no_shared_ip st data v hemp] at h2
    exact le_min (by omega) h2

/-- Witness for C7: `alice`'s device observed with `bob`'s login scores ≥ 65
when `bob` shares the IP, and ≥ 80 when `bob` has no device on that IP. -/
theorem shared_device_forces_high_risk_witness :
    65 ≤ analyzeRisk sharedDeviceStore sharedDeviceData (some "bob")
    ∧ 80 ≤ analyzeRisk soloDeviceStore sharedDeviceData (some "bob") :=
  ⟨(shared_device_forces_high_risk sharedDeviceStore sharedDeviceData aliceDevice
      "alice" "bob" (by decide) (by decide) (by decide) (by decide)).1,
   (shared_device_forces_high_risk soloDeviceStore sharedDeviceData aliceDevice
      "alice" "bob" (by decide) (by decide) (by decide) (by decide)).2 (by decide)⟩

/-! ## Session/guard desynchronisation (token `sessionId` vs record id) -/

theorem password_login_token_guard_miss (st : MemStorage) (email password : String)
    (data : DeviceFingerprintData) (vp : String → String → Bool)
    (fresh : LoginFresh) (now now₂ : Int) (user : User)
    (hemail : email ≠ "") (hpw : password ≠ "")
    (huser : getUserByEmail st email = some user)
    (hvp : vp password user.masterPasswordHash = true)
    (hfr : fresh.sessionRecId ≠ fresh.sessionIdHex)
    (hold : ∀ s ∈ mapValues st.authSessions, s.id ≠ fresh.sessionIdHex) :
    (loginHandler st email password data vp fresh now).2
      = .success ⟨user.id, user.email, fresh.sessionIdHex, "password", 10, data.fingerprint⟩
          fresh.refreshToken fresh.sessionIdHex (now + 60 * 60 * 1000) false 10
    ∧ authenticateToken (loginHandler st email password data vp fresh now).1
        (some ⟨user.id, user.email, fresh.sessionIdHex, "password", 10, data.fingerprint⟩) now₂
        = .err 401 "SESSION_EXPIRED"
    ∧ (getAuthSessionBySessionId (loginHandler st email password data vp fresh now).1
        fresh.sessionRecId).isSome := by
  have hcond : ¬(email = "" ∨ password = "") := by
    intro h
    rcases h with h | h
    · exact hemail h
    · exact hpw h
  simp only [loginHandler, if_neg hcond, huser, hvp, Bool.not_true, Bool.false_eq_true,
    if_false, hardcodedLoginAssessment, generateTokenPair, createAuthSession,
    createSecurityLog, reduceCtorEq, if_neg]
  refine ⟨trivial, ?_, ?_⟩
  · apply authenticateToken_of_no_session
    refine getAuthSessionBySessionId_mapSet_none _ _ fresh.sessionRecId _
      fresh.sessionIdHex rfl hfr ?_
    rw [recordDeviceLogin_authSessions]
    exact hold
  · exact getAuthSessionBySessionId_mapSet_isSome _ _ fresh.sessionRecId _
      fresh.sessionRecId rfl rfl rfl

theorem webauthn_login_token_guard_miss (st : MemStorage) (uid : String)
    (data : DeviceFingerprintData) (fresh : LoginFresh) (now now₂ : Int)
    (hour dayOfWeek : Nat) (user : User)
    (huser : getUser st uid = some user)
    (hnb : (assessLoginRisk (recordDeviceLogin st data (some user.id) fresh.deviceRecId now)
        user.id data "webauthn" now hour dayOfWeek).recommendation ≠ .block)
    (hfr : fresh.sessionRecId ≠ fresh.sessionIdHex)
    (hold : ∀ s ∈ mapValues st.authSessions, s.id ≠ fresh.sessionIdHex) :
    authenticateToken (webauthnCompleteHandler st (some uid) data fresh now hour dayOfWeek).1
        (some ⟨user.id, user.email, fresh.sessionIdHex, "webauthn",
          (assessLoginRisk (recordDeviceLogin st data (some user.id) fresh.deviceRecId now)
            user.id data "webauthn" now hour dayOfWeek).overallRisk, data.fingerprint⟩) now₂
        = .err 401 "SESSION_EXPIRED"
    ∧ (getAuthSessionBySessionId
        (webauthnCompleteHandler st (some uid) data fresh now hour dayOfWeek).1
        fresh.sessionRecId).isSome := by
  simp only [webauthnCompleteHandler, huser, if_neg hnb, generateTokenPair,
    createAuthSession, createSecurityLog]
  refine ⟨?_, ?_⟩
  · apply authenticateToken_of_no_session
    refine getAuthSessionBySessionId_mapSet_none _ _ fresh.sessionRecId _
      fresh.sessionIdHex rfl hfr ?_
    rw [recordDeviceLogin_authSessions]
    exact hold
  · exact getAuthSessionBySessionId_mapSet_isSome _ _ fresh.sessionRecId _
      fresh.sessionRecId rfl rfl rfl

/-- C3: every access token minted by the password or WebAuthn login routes is
rejected by the Request Guard with a session-expired error even while its
session record is active: the session is stored under the freshly generated
record id (`randomUUID`), while the token's `sessionId` claim is an
independently generated hex string, so the guard's lookup by the token's
`sessionId` finds nothing (whenever the two fresh values differ and no
existing session record happens to carry the hex value as its id). -/
theorem session_lookup_never_finds_minted_token :
    (∀ (st : MemStorage) (email password : String) (data : DeviceFingerprintData)
        (vp : String → String → Bool) (fresh : LoginFresh) (now now₂ : Int) (user : User),
        email ≠ "" → password ≠ "" →
        getUserByEmail st email = some user →
        vp password user.masterPasswordHash = true →
        fresh.sessionRecId ≠ fresh.sessionIdHex →
        (∀ s ∈ mapValues st.authSessions, s.id ≠ fresh.sessionIdHex) →
        ((loginHandler st email password data vp fresh now).2
            = .success ⟨user.id, user.email, fresh.sessionIdHex, "password", 10, data.fingerprint⟩
                fresh.refreshToken fresh.sessionIdHex (now + 60 * 60 * 1000) false 10
          ∧ authenticateToken (loginHandler st email password data vp fresh now).1
              (some ⟨user.id, user.email, fresh.sessionIdHex, "password", 10, data.fingerprint⟩)
              now₂ = .err 401 "SESSION_EXPIRED"
          ∧ (getAuthSessionBySessionId (loginHandler st email password data vp fresh now).1
              fresh.sessionRecId).isSome))
    ∧ (∀ (st : MemStorage) (uid : String) (data : DeviceFingerprintData)
        (fresh : LoginFresh) (now now₂ : Int) (hour dayOfWeek : Nat) (user : User),
        getUser st uid = some user →
        (assessLoginRisk (recordDeviceLogin st data (some user.id) fresh.deviceRecId now)
            user.id data "webauthn" now hour dayOfWeek).recommendation ≠ .block →
        fresh.sessionRecId ≠ fresh.sessionIdHex →
        (∀ s ∈ mapValues st.authSessions, s.id ≠ fresh.sessionIdHex) →
        (authenticateToken (webauthnCompleteHandler st (some uid) data fresh now hour dayOfWeek).1
            (some ⟨user.id, user.email, fresh.sessionIdHex, "webauthn",
              (assessLoginRisk (recordDeviceLogin st data (some user.id) fresh.deviceRecId now)
                user.id data "webauthn" now hour dayOfWeek).overallRisk, data.fingerprint⟩)
            now₂ = .err 401 "SESSION_EXPIRED"
          ∧ (getAuthSessionBySessionId
              (webauthnCompleteHandler st (some uid) data fresh now hour dayOfWeek).1
              fresh.sessionRecId).isSome)) :=
  ⟨fun st email password data vp fresh now now₂ user hemail hpw huser hvp hfr hold =>
    password_login_token_guard_miss st email password data vp fresh now now₂ user
      hemail hpw huser hvp hfr hold,
   fun st uid data fresh now now₂ hour dayOfWeek user huser hnb hfr hold =>
    webauthn_login_token_guard_miss st uid data fresh now now₂ hour dayOfWeek user
      huser hnb hfr hold⟩

/-- Witness for C3: the concrete password login of `pwUser` from the unknown
device mints a token whose guard check fails with `SESSION_EXPIRED` while the
created session record is active and findable under its own id. -/
theorem session_lookup_never_finds_minted_token_witness :
    (loginHandler loginStore "a@b.c" "pw" loginDevice pwVerify loginFreshEx 0).2
      = .success ⟨pwUser.id, pwUser.email, loginFreshEx.sessionIdHex, "password", 10,
            loginDevice.fingerprint⟩
          loginFreshEx.refreshToken loginFreshEx.sessionIdHex (0 + 60 * 60 * 1000) false 10
    ∧ authenticateToken (loginHandler loginStore "a@b.c" "pw" loginDevice pwVerify loginFreshEx 0).1
        (some ⟨pwUser.id, pwUser.email, loginFreshEx.sessionIdHex, "password", 10,
          loginDevice.fingerprint⟩) 5 = .err 401 "SESSION_EXPIRED"
    ∧ (getAuthSessionBySessionId
        (loginHandler loginStore "a@b.c" "pw" loginDevice pwVerify loginFreshEx 0).1
        loginFreshEx.sessionRecId).isSome :=
  session_lookup_never_finds_minted_token.1 loginStore "a@b.c" "pw" loginDevice pwVerify
    loginFreshEx 0 5 pwUser (by decide) (by decide) (by decide) (by decide) (by decide)
    (by decide)
